import Mathlib

/-!
# Credential bootstrap of the Google Calendar Terraform provider

A shallow embedding of `googlecalendar/config.go`.

* Every Go call that returns `(value, error)` is a pair whose second component is
  `Option Error`; `none` is the nil error.  Pointers that may be nil are `Option`s.
* The process environment and the file system are explicit (`World`); each function that
  calls `ioutil.ReadFile` also returns the list of paths it passed to that call, in order.
* The functions of the libraries the file imports (`google.ConfigFromJSON`, `json.Unmarshal`,
  `oauth2.Config.Client`, `logging.NewTransport`, `calendar.New`, `runtime.GOOS`, ...) are
  fields of a parameter record `Lib`; nothing is assumed about what they compute.
* `log.Fatalf` ends the process: `Outcome.fatal` carries the formatted message.
-/

namespace GoogleCalendar

/-- Go `error` value, observed through the string its `Error()` method yields. -/
structure Error where
  msg : String
deriving DecidableEq, Repr

/-- Go `[]byte`. -/
abbrev Bytes := List UInt8

/-- What the process can observe: `env key` is `none` when the variable is not set
(`some ""` is a variable set to the empty string); `fs path` is what
`ioutil.ReadFile path` returns. -/
structure World where
  env : String → Option String
  fs : String → Bytes × Option Error

/-- Go `http.Client`, reduced to the field the code assigns. -/
structure HttpClient (Tr : Type) where
  Transport : Tr
deriving DecidableEq, Repr

/-- Go `calendar.Service`, reduced to its client and its two string fields. -/
structure Service (Tr : Type) where
  client : HttpClient Tr
  BasePath : String
  UserAgent : String
deriving DecidableEq, Repr

/-- The imported library functions and constants used by `config.go`. -/
structure Lib (Cfg Tok Tr : Type) where
  /-- `google.ConfigFromJSON(b, scope)` -/
  ConfigFromJSON : Bytes → String → Option Cfg × Option Error
  /-- `&oauth2.Token{}` -/
  zeroToken : Tok
  /-- `json.Unmarshal(b, tok)`: the token after the call and the error -/
  Unmarshal : Bytes → Tok → Tok × Option Error
  /-- `config.Client(context.Background(), tok)` -/
  Client : Option Cfg → Option Tok → HttpClient Tr
  /-- `logging.NewTransport(name, t)` -/
  NewTransport : String → Tr → Tr
  /-- `calendar.New(client)` -/
  calendarNew : HttpClient Tr → Option (Service Tr) × Option Error
  /-- `calendar.CalendarScope` -/
  CalendarScope : String
  /-- `runtime.GOOS` -/
  GOOS : String
  /-- `runtime.GOARCH` -/
  GOARCH : String
  /-- `terraform.VersionString()` -/
  VersionString : String

/-- The struct `Config`: `calendar` is a pointer, `none` when nil. -/
structure Config (Tr : Type) where
  calendar : Option (Service Tr)
deriving DecidableEq, Repr

/-- Result of a Go function returning `(value, error)`, with the paths it read. -/
structure Call (α : Type) where
  val : α
  err : Option Error
  reads : List String
deriving DecidableEq, Repr

/-- How a call of `loadAndValidate` ends. -/
inductive Outcome where
  /-- the function returns this error value (`none` is nil) to its caller -/
  | returned (err : Option Error)
  /-- `log.Fatalf` printed this message and the process exited -/
  | fatal (message : String)
  /-- nil pointer dereference -/
  | panic
deriving DecidableEq, Repr

/-- Everything observable after a call of `loadAndValidate` on receiver `c`. -/
structure Exec (Tr : Type) where
  outcome : Outcome
  c : Config Tr
  reads : List String
deriving DecidableEq, Repr

/-- `os.Getenv`: the value of the variable, empty when it is not present. -/
def Getenv (env : String → Option String) (key : String) : String :=
  match env key with
  | some value => value
  | none => ""

/-- `errors.Wrap(err, message)` of `github.com/pkg/errors`: nil for a nil `err`, otherwise
an error whose text is `message`, a colon and a blank, and the text of `err`. -/
def Wrap (err : Option Error) (message : String) : Option Error :=
  match err with
  | none => none
  | some e => some ⟨message ++ ": " ++ e.msg⟩

/-- `getEnvWithDefault` (config.go lines 88-94). -/
def getEnvWithDefault (env : String → Option String) (key defaltValue : String) : String :=
  let value := Getenv env key
  if value = "" then defaltValue else value

variable {Cfg Tok Tr : Type}

/-- `configFromFile` (config.go lines 61-74). -/
def configFromFile (L : Lib Cfg Tok Tr) (w : World) : Call (Option Cfg) :=
  let path := getEnvWithDefault w.env "CALENDAR_CREDENTIALS_FILE" "credentials.json"
  match w.fs path with
  | (_, some err) => ⟨none, Wrap (some err) "Unable to read client secret file", [path]⟩
  | (b, none) =>
    match L.ConfigFromJSON b L.CalendarScope with
    | (_, some err) =>
      ⟨none, Wrap (some err) "Unable to parse client secret file to config", [path]⟩
    | (config, none) => ⟨config, none, [path]⟩

/-- `tokenFromFile` (config.go lines 77-85). -/
def tokenFromFile (L : Lib Cfg Tok Tr) (w : World) : Call (Option Tok) :=
  let path := getEnvWithDefault w.env "CALENDAR_OAUTH2_TOKEN_FILE" "token.json"
  match w.fs path with
  | (_, some err) => ⟨none, some err, [path]⟩
  | (b, none) =>
    let tok := L.zeroToken
    match L.Unmarshal b tok with
    | (tok, err) => ⟨some tok, err, [path]⟩

/-- The HTTP client handed to `calendar.New` (config.go lines 42-46): the client of the
OAuth2 configuration, its transport wrapped by the logging transport. -/
def httpClient (L : Lib Cfg Tok Tr) (config : Option Cfg) (tok : Option Tok) : HttpClient Tr :=
  let client := L.Client config tok
  { client with Transport := L.NewTransport "Google" client.Transport }

/-- The user agent string (config.go lines 47-48), the result of
`fmt.Sprintf("(%s %s) Terraform/%s", ...)`. -/
def userAgent (L : Lib Cfg Tok Tr) : String :=
  "(" ++ L.GOOS ++ " " ++ L.GOARCH ++ ") Terraform/" ++ L.VersionString

/-- `(*Config).loadAndValidate` (config.go lines 31-59), called on a non-nil receiver
whose value is `c`. -/
def loadAndValidate (L : Lib Cfg Tok Tr) (w : World) (c : Config Tr) : Exec Tr :=
  let r1 := configFromFile L w
  match r1.err with
  | some err =>
    ⟨.fatal ("Unable to load configuration from file: " ++ err.msg), c, r1.reads⟩
  | none =>
    let r2 := tokenFromFile L w
    match r2.err with
    | some err =>
      ⟨.fatal ("Unable to load oauth2 token from file: " ++ err.msg), c, r1.reads ++ r2.reads⟩
    | none =>
      let client := httpClient L r1.val r2.val
      match L.calendarNew client with
      | (_, some err) =>
        ⟨.returned (some ⟨"failed creating a new calendar service: " ++ err.msg⟩), c,
          r1.reads ++ r2.reads⟩
      | (none, none) => ⟨.panic, c, r1.reads ++ r2.reads⟩
      | (some calendarSvc, none) =>
        ⟨.returned none, { c with calendar := some { calendarSvc with UserAgent := userAgent L } },
          r1.reads ++ r2.reads⟩

/-! ## Concrete worlds and libraries used at the examples -/

/-- An environment in which every variable is set to the empty string. -/
def envAllEmpty : String → Option String := fun _ => some ""

/-- An environment with no variable set. -/
def envNone : String → Option String := fun _ => none

/-- A file system in which every read succeeds with empty contents. -/
def fsAllEmpty : String → Bytes × Option Error := fun _ => ([], none)

/-- A file system in which every read fails. -/
def fsNoFile : String → Bytes × Option Error := fun _ => ([], some ⟨"no such file or directory"⟩)

/-- A library over unit types: both parsers accept, service construction succeeds. -/
def libOk : Lib Unit Unit Unit where
  ConfigFromJSON := fun _ _ => (some (), none)
  zeroToken := ()
  Unmarshal := fun _ t => (t, none)
  Client := fun _ _ => ⟨()⟩
  NewTransport := fun _ t => t
  calendarNew := fun cl => (some ⟨cl, "https://www.googleapis.com/calendar/v3/", ""⟩, none)
  CalendarScope := "https://www.googleapis.com/auth/calendar"
  GOOS := "linux"
  GOARCH := "amd64"
  VersionString := "0.11.7"

/-- The library `libOk` with a JSON decoder that rejects every token file. -/
def libBadToken : Lib Unit Unit Unit :=
  { libOk with Unmarshal := fun _ t => (t, some ⟨"unexpected end of JSON input"⟩) }

/-- The library `libOk` with a client-secret parser that rejects every file. -/
def libBadSecret : Lib Unit Unit Unit :=
  { libOk with ConfigFromJSON := fun _ _ => (none, some ⟨"unexpected end of JSON input"⟩) }

/-- The library `libOk` with a service constructor that fails. -/
def libNoService : Lib Unit Unit Unit :=
  { libOk with calendarNew := fun _ => (none, some ⟨"client is nil"⟩) }

/-- An environment in which only the two variables of the provider are set. -/
def envCustom : String → Option String := fun key =>
  if key = "CALENDAR_CREDENTIALS_FILE" then some "/etc/gcal/secret.json"
  else if key = "CALENDAR_OAUTH2_TOKEN_FILE" then some "/etc/gcal/tok.json"
  else none

/-! ## Shared lemmas -/

theorem Getenv_unset (env : String → Option String) (key : String) (h : env key = none) :
    Getenv env key = "" := by
  simp [Getenv, h]

theorem Getenv_set (env : String → Option String) (key v : String) (h : env key = some v) :
    Getenv env key = v := by
  simp [Getenv, h]

theorem getEnvWithDefault_of_empty (env : String → Option String) (key d : String)
    (h : Getenv env key = "") : getEnvWithDefault env key d = d := by
  simp [getEnvWithDefault, h]

theorem getEnvWithDefault_of_nonempty (env : String → Option String) (key d : String)
    (h : Getenv env key ≠ "") : getEnvWithDefault env key d = Getenv env key := by
  simp [getEnvWithDefault, h]

theorem getEnvWithDefault_ne_empty (env : String → Option String) (key d : String)
    (hd : d ≠ "") : getEnvWithDefault env key d ≠ "" := by
  by_cases h : Getenv env key = ""
  · rw [getEnvWithDefault_of_empty env key d h]; exact hd
  · rw [getEnvWithDefault_of_nonempty env key d h]; exact h

theorem configFromFile_reads (L : Lib Cfg Tok Tr) (w : World) :
    (configFromFile L w).reads =
      [getEnvWithDefault w.env "CALENDAR_CREDENTIALS_FILE" "credentials.json"] := by
  cases h : w.fs (getEnvWithDefault w.env "CALENDAR_CREDENTIALS_FILE" "credentials.json")
    with
  | mk b e =>
    cases e with
    | some e => simp only [configFromFile, h]
    | none =>
      cases hp : L.ConfigFromJSON b L.CalendarScope with
      | mk cfg e => cases e <;> simp only [configFromFile, h, hp]

theorem tokenFromFile_reads (L : Lib Cfg Tok Tr) (w : World) :
    (tokenFromFile L w).reads =
      [getEnvWithDefault w.env "CALENDAR_OAUTH2_TOKEN_FILE" "token.json"] := by
  cases h : w.fs (getEnvWithDefault w.env "CALENDAR_OAUTH2_TOKEN_FILE" "token.json") with
  | mk b e => cases e <;> simp only [tokenFromFile, h]

theorem configFromFile_read_error (L : Lib Cfg Tok Tr) (w : World) (b : Bytes) (e : Error)
    (h : w.fs (getEnvWithDefault w.env "CALENDAR_CREDENTIALS_FILE" "credentials.json")
      = (b, some e)) :
    (configFromFile L w).val = none ∧
      (configFromFile L w).err = some ⟨"Unable to read client secret file: " ++ e.msg⟩ := by
  simp only [configFromFile, h, Wrap]
  exact ⟨trivial, rfl⟩

theorem configFromFile_parse_error (L : Lib Cfg Tok Tr) (w : World) (b : Bytes)
    (cfg : Option Cfg) (e : Error)
    (h : w.fs (getEnvWithDefault w.env "CALENDAR_CREDENTIALS_FILE" "credentials.json")
      = (b, none))
    (hp : L.ConfigFromJSON b L.CalendarScope = (cfg, some e)) :
    (configFromFile L w).val = none ∧
      (configFromFile L w).err
        = some ⟨"Unable to parse client secret file to config: " ++ e.msg⟩ := by
  simp only [configFromFile, h, hp, Wrap]
  exact ⟨trivial, rfl⟩

theorem tokenFromFile_read_error (L : Lib Cfg Tok Tr) (w : World) (b : Bytes) (e : Error)
    (h : w.fs (getEnvWithDefault w.env "CALENDAR_OAUTH2_TOKEN_FILE" "token.json")
      = (b, some e)) :
    (tokenFromFile L w).val = none ∧ (tokenFromFile L w).err = some e := by
  simp only [tokenFromFile, h, and_self]

theorem tokenFromFile_read_ok (L : Lib Cfg Tok Tr) (w : World) (b : Bytes)
    (h : w.fs (getEnvWithDefault w.env "CALENDAR_OAUTH2_TOKEN_FILE" "token.json")
      = (b, none)) :
    (tokenFromFile L w).val = some (L.Unmarshal b L.zeroToken).1 ∧
      (tokenFromFile L w).err = (L.Unmarshal b L.zeroToken).2 := by
  simp only [tokenFromFile, h, and_self]

theorem loadAndValidate_config_error (L : Lib Cfg Tok Tr) (w : World) (c : Config Tr)
    (e : Error) (h : (configFromFile L w).err = some e) :
    loadAndValidate L w c =
      ⟨.fatal ("Unable to load configuration from file: " ++ e.msg), c,
        (configFromFile L w).reads⟩ := by
  simp only [loadAndValidate, h]

theorem loadAndValidate_token_error (L : Lib Cfg Tok Tr) (w : World) (c : Config Tr)
    (e : Error) (hc : (configFromFile L w).err = none) (h : (tokenFromFile L w).err = some e) :
    loadAndValidate L w c =
      ⟨.fatal ("Unable to load oauth2 token from file: " ++ e.msg), c,
        (configFromFile L w).reads ++ (tokenFromFile L w).reads⟩ := by
  simp only [loadAndValidate, hc, h]

theorem loadAndValidate_service_error (L : Lib Cfg Tok Tr) (w : World) (c : Config Tr)
    (svc : Option (Service Tr)) (e : Error)
    (hc : (configFromFile L w).err = none) (ht : (tokenFromFile L w).err = none)
    (h : L.calendarNew (httpClient L (configFromFile L w).val (tokenFromFile L w).val)
      = (svc, some e)) :
    loadAndValidate L w c =
      ⟨.returned (some ⟨"failed creating a new calendar service: " ++ e.msg⟩), c,
        (configFromFile L w).reads ++ (tokenFromFile L w).reads⟩ := by
  simp only [loadAndValidate, hc, ht, h]

theorem loadAndValidate_service_nil (L : Lib Cfg Tok Tr) (w : World) (c : Config Tr)
    (hc : (configFromFile L w).err = none) (ht : (tokenFromFile L w).err = none)
    (h : L.calendarNew (httpClient L (configFromFile L w).val (tokenFromFile L w).val)
      = (none, none)) :
    loadAndValidate L w c =
      ⟨.panic, c, (configFromFile L w).reads ++ (tokenFromFile L w).reads⟩ := by
  simp only [loadAndValidate, hc, ht, h]

theorem loadAndValidate_service_ok (L : Lib Cfg Tok Tr) (w : World) (c : Config Tr)
    (svc : Service Tr)
    (hc : (configFromFile L w).err = none) (ht : (tokenFromFile L w).err = none)
    (h : L.calendarNew (httpClient L (configFromFile L w).val (tokenFromFile L w).val)
      = (some svc, none)) :
    loadAndValidate L w c =
      ⟨.returned none, { c with calendar := some { svc with UserAgent := userAgent L } },
        (configFromFile L w).reads ++ (tokenFromFile L w).reads⟩ := by
  simp only [loadAndValidate, hc, ht, h]

/-! ## The environment lookup -/

/-- C1, refuted as stated: with the variable `CALENDAR_CREDENTIALS_FILE` defined and set to
the empty string, `getEnvWithDefault` returns the default `credentials.json`, which is not
the value of the variable. -/
theorem getEnvWithDefault_defined_empty_returns_default :
    envAllEmpty "CALENDAR_CREDENTIALS_FILE" = some "" ∧
      getEnvWithDefault envAllEmpty "CALENDAR_CREDENTIALS_FILE" "credentials.json"
        = "credentials.json" ∧
      getEnvWithDefault envAllEmpty "CALENDAR_CREDENTIALS_FILE" "credentials.json" ≠ "" := by
  decide

/-- C1, amended: `getEnvWithDefault key d` returns `d` when the variable `key` is not defined
or is defined as the empty string, and returns the value of the variable when it is defined
and not empty. -/
theorem getEnvWithDefault_spec (env : String → Option String) (key d : String) :
    (env key = none ∨ env key = some "" → getEnvWithDefault env key d = d) ∧
      (∀ v, env key = some v → v ≠ "" → getEnvWithDefault env key d = v) := by
  constructor
  · intro h
    apply getEnvWithDefault_of_empty
    rcases h with h | h
    · exact Getenv_unset env key h
    · exact Getenv_set env key "" h
  · intro v hv hne
    have hg : Getenv env key = v := Getenv_set env key v hv
    rw [getEnvWithDefault_of_nonempty env key d (by rw [hg]; exact hne), hg]

/-- Instance of `getEnvWithDefault_spec`: an unset variable and a set, non-empty one. -/
theorem getEnvWithDefault_spec_witness :
    getEnvWithDefault envNone "CALENDAR_OAUTH2_TOKEN_FILE" "token.json" = "token.json" ∧
      getEnvWithDefault envCustom "CALENDAR_OAUTH2_TOKEN_FILE" "token.json"
        = "/etc/gcal/tok.json" :=
  ⟨(getEnvWithDefault_spec envNone "CALENDAR_OAUTH2_TOKEN_FILE" "token.json").1 (Or.inl rfl),
    (getEnvWithDefault_spec envCustom "CALENDAR_OAUTH2_TOKEN_FILE" "token.json").2
      "/etc/gcal/tok.json" (by decide) (by decide)⟩

/-- C10: with a non-empty default `getEnvWithDefault` never returns the empty string; a
variable set to the empty string gives the same result as an unset one; and every path that
`configFromFile`, `tokenFromFile` (and so `loadAndValidate`) pass to the file read is
non-empty. -/
theorem getEnvWithDefault_nonempty_paths (L : Lib Cfg Tok Tr) (w : World) (c : Config Tr)
    (env env' : String → Option String) (key d : String) :
    (d ≠ "" → getEnvWithDefault env key d ≠ "") ∧
      (env key = some "" → env' key = none →
        getEnvWithDefault env key d = getEnvWithDefault env' key d) ∧
      (∀ p ∈ (configFromFile L w).reads, p ≠ "") ∧
      (∀ p ∈ (tokenFromFile L w).reads, p ≠ "") ∧
      (∀ p ∈ (loadAndValidate L w c).reads, p ≠ "") := by
  have h1 : getEnvWithDefault w.env "CALENDAR_CREDENTIALS_FILE" "credentials.json" ≠ "" :=
    getEnvWithDefault_ne_empty _ _ _ (by decide)
  have h2 : getEnvWithDefault w.env "CALENDAR_OAUTH2_TOKEN_FILE" "token.json" ≠ "" :=
    getEnvWithDefault_ne_empty _ _ _ (by decide)
  have hc : ∀ p ∈ (configFromFile L w).reads, p ≠ "" := by
    intro p hp
    rw [configFromFile_reads, List.mem_singleton] at hp
    rw [hp]; exact h1
  have ht : ∀ p ∈ (tokenFromFile L w).reads, p ≠ "" := by
    intro p hp
    rw [tokenFromFile_reads, List.mem_singleton] at hp
    rw [hp]; exact h2
  refine ⟨getEnvWithDefault_ne_empty env key d, ?_, hc, ht, ?_⟩
  · intro hs hu
    rw [getEnvWithDefault_of_empty env key d (Getenv_set env key "" hs),
      getEnvWithDefault_of_empty env' key d (Getenv_unset env' key hu)]
  · intro p hp
    cases hce : (configFromFile L w).err with
    | some e =>
      rw [loadAndValidate_config_error L w c e hce] at hp
      exact hc p hp
    | none =>
      have hsub : (loadAndValidate L w c).reads
          = (configFromFile L w).reads ++ (tokenFromFile L w).reads := by
        cases hte : (tokenFromFile L w).err with
        | some e => rw [loadAndValidate_token_error L w c e hce hte]
        | none =>
          cases hs : L.calendarNew
              (httpClient L (configFromFile L w).val (tokenFromFile L w).val) with
          | mk svc e =>
            cases e with
            | some e => rw [loadAndValidate_service_error L w c svc e hce hte hs]
            | none =>
              cases svc with
              | none => rw [loadAndValidate_service_nil L w c hce hte hs]
              | some svc => rw [loadAndValidate_service_ok L w c svc hce hte hs]
      rw [hsub, List.mem_append] at hp
      rcases hp with hp | hp
      · exact hc p hp
      · exact ht p hp

/-- Instance of `getEnvWithDefault_nonempty_paths` in an environment where every variable is
set to the empty string. -/
theorem getEnvWithDefault_nonempty_paths_witness :
    getEnvWithDefault envAllEmpty "CALENDAR_CREDENTIALS_FILE" "credentials.json" ≠ "" ∧
      getEnvWithDefault envAllEmpty "CALENDAR_CREDENTIALS_FILE" "credentials.json"
        = getEnvWithDefault envNone "CALENDAR_CREDENTIALS_FILE" "credentials.json" ∧
      "token.json" ≠ "" :=
  have h := getEnvWithDefault_nonempty_paths libOk ⟨envAllEmpty, fsAllEmpty⟩ ⟨none⟩
    envAllEmpty envNone "CALENDAR_CREDENTIALS_FILE" "credentials.json"
  ⟨h.1 (by decide), h.2.1 rfl rfl, h.2.2.2.2 "token.json" (by decide)⟩

/-! ## Which files the loaders read -/

/-- C2, refuted as stated: with both variables set to the empty string the loaders do not
read the path that is the value of the variable (the empty path); `configFromFile` reads
`credentials.json` and `tokenFromFile` reads `token.json`. -/
theorem loaders_read_default_when_set_empty :
    envAllEmpty "CALENDAR_CREDENTIALS_FILE" = some "" ∧
      (configFromFile libOk ⟨envAllEmpty, fsAllEmpty⟩).reads = ["credentials.json"] ∧
      (configFromFile libOk ⟨envAllEmpty, fsAllEmpty⟩).reads ≠ [""] ∧
      envAllEmpty "CALENDAR_OAUTH2_TOKEN_FILE" = some "" ∧
      (tokenFromFile libOk ⟨envAllEmpty, fsAllEmpty⟩).reads = ["token.json"] ∧
      (tokenFromFile libOk ⟨envAllEmpty, fsAllEmpty⟩).reads ≠ [""] := by
  decide

/-- C2, amended: `configFromFile` performs exactly one file read, of the path that is the
value of `CALENDAR_CREDENTIALS_FILE` when that variable is set and not empty, and of
`credentials.json` when it is not set or set to the empty string; `tokenFromFile` performs
exactly one file read, of the value of `CALENDAR_OAUTH2_TOKEN_FILE` when set and not empty,
and of `token.json` when it is not set or set to the empty string. -/
theorem loaders_read_exactly (L : Lib Cfg Tok Tr) (w : World) :
    (∀ v, w.env "CALENDAR_CREDENTIALS_FILE" = some v → v ≠ "" →
        (configFromFile L w).reads = [v]) ∧
      (w.env "CALENDAR_CREDENTIALS_FILE" = none ∨ w.env "CALENDAR_CREDENTIALS_FILE" = some "" →
        (configFromFile L w).reads = ["credentials.json"]) ∧
      (∀ v, w.env "CALENDAR_OAUTH2_TOKEN_FILE" = some v → v ≠ "" →
        (tokenFromFile L w).reads = [v]) ∧
      (w.env "CALENDAR_OAUTH2_TOKEN_FILE" = none ∨ w.env "CALENDAR_OAUTH2_TOKEN_FILE" = some "" →
        (tokenFromFile L w).reads = ["token.json"]) := by
  have hset : ∀ key d v, w.env key = some v → v ≠ "" → getEnvWithDefault w.env key d = v := by
    intro key d v hv hne
    have hg : Getenv w.env key = v := Getenv_set w.env key v hv
    rw [getEnvWithDefault_of_nonempty w.env key d (by rw [hg]; exact hne), hg]
  have hdef : ∀ key d, w.env key = none ∨ w.env key = some "" →
      getEnvWithDefault w.env key d = d := by
    intro key d h
    apply getEnvWithDefault_of_empty
    rcases h with h | h
    · exact Getenv_unset w.env key h
    · exact Getenv_set w.env key "" h
  refine ⟨?_, ?_, ?_, ?_⟩
  · intro v hv hne
    rw [configFromFile_reads, hset _ _ v hv hne]
  · intro h
    rw [configFromFile_reads, hdef _ _ h]
  · intro v hv hne
    rw [tokenFromFile_reads, hset _ _ v hv hne]
  · intro h
    rw [tokenFromFile_reads, hdef _ _ h]

/-- Instance of `loaders_read_exactly`: both variables set to paths under `/etc/gcal`, and
no variable set. -/
theorem loaders_read_exactly_witness :
    (configFromFile libOk ⟨envCustom, fsAllEmpty⟩).reads = ["/etc/gcal/secret.json"] ∧
      (tokenFromFile libOk ⟨envCustom, fsAllEmpty⟩).reads = ["/etc/gcal/tok.json"] ∧
      (configFromFile libOk ⟨envNone, fsNoFile⟩).reads = ["credentials.json"] ∧
      (tokenFromFile libOk ⟨envNone, fsNoFile⟩).reads = ["token.json"] :=
  ⟨(loaders_read_exactly libOk ⟨envCustom, fsAllEmpty⟩).1 "/etc/gcal/secret.json"
      (by decide) (by decide),
    (loaders_read_exactly libOk ⟨envCustom, fsAllEmpty⟩).2.2.1 "/etc/gcal/tok.json"
      (by decide) (by decide),
    (loaders_read_exactly libOk ⟨envNone, fsNoFile⟩).2.1 (Or.inl rfl),
    (loaders_read_exactly libOk ⟨envNone, fsNoFile⟩).2.2.2 (Or.inl rfl)⟩

/-! ## Failures that end the process -/

/-- C3: when the read of the credential file or the read of the token file fails,
`loadAndValidate` ends in `log.Fatalf`; it returns neither nil nor an error. -/
theorem loadAndValidate_fatal_of_unreadable (L : Lib Cfg Tok Tr) (w : World) (c : Config Tr)
    (h : (w.fs (getEnvWithDefault w.env "CALENDAR_CREDENTIALS_FILE" "credentials.json")).2 ≠ none
      ∨ (w.fs (getEnvWithDefault w.env "CALENDAR_OAUTH2_TOKEN_FILE" "token.json")).2 ≠ none) :
    (∃ message, (loadAndValidate L w c).outcome = .fatal message) ∧
      ∀ err, (loadAndValidate L w c).outcome ≠ .returned err := by
  have key : ∃ message, (loadAndValidate L w c).outcome = .fatal message := by
    cases hce : (configFromFile L w).err with
    | some e => exact ⟨_, by rw [loadAndValidate_config_error L w c e hce]⟩
    | none =>
      cases hte : (tokenFromFile L w).err with
      | some e => exact ⟨_, by rw [loadAndValidate_token_error L w c e hce hte]⟩
      | none =>
        exfalso
        rcases h with h | h
        · cases hf : w.fs (getEnvWithDefault w.env "CALENDAR_CREDENTIALS_FILE"
            "credentials.json") with
          | mk b e =>
            cases e with
            | none => rw [hf] at h; exact h rfl
            | some e =>
              rw [(configFromFile_read_error L w b e hf).2] at hce
              exact Option.noConfusion hce
        · cases hf : w.fs (getEnvWithDefault w.env "CALENDAR_OAUTH2_TOKEN_FILE"
            "token.json") with
          | mk b e =>
            cases e with
            | none => rw [hf] at h; exact h rfl
            | some e =>
              rw [(tokenFromFile_read_error L w b e hf).2] at hte
              exact Option.noConfusion hte
  refine ⟨key, ?_⟩
  intro err herr
  obtain ⟨message, hm⟩ := key
  rw [hm] at herr
  exact Outcome.noConfusion herr

/-- Instance of `loadAndValidate_fatal_of_unreadable`: no file can be read. -/
theorem loadAndValidate_fatal_of_unreadable_witness :
    (fsNoFile (getEnvWithDefault envNone "CALENDAR_CREDENTIALS_FILE" "credentials.json")).2
        ≠ none ∧
      ((∃ message, (loadAndValidate libOk ⟨envNone, fsNoFile⟩ ⟨none⟩).outcome = .fatal message) ∧
        ∀ err, (loadAndValidate libOk ⟨envNone, fsNoFile⟩ ⟨none⟩).outcome ≠ .returned err) :=
  ⟨by decide,
    loadAndValidate_fatal_of_unreadable libOk ⟨envNone, fsNoFile⟩ ⟨none⟩ (Or.inl (by decide))⟩

/-- C4, refuted as stated: the credential file loads and parses, the token file is read, and
the JSON decoder rejects its contents; `loadAndValidate` ends in `log.Fatalf` and returns
nothing to its caller. -/
theorem loadAndValidate_malformed_token_is_fatal :
    (configFromFile libBadToken ⟨envNone, fsAllEmpty⟩).err = none ∧
      fsAllEmpty "token.json" = ([], none) ∧
      (libBadToken.Unmarshal [] libBadToken.zeroToken).2
        = some ⟨"unexpected end of JSON input"⟩ ∧
      (loadAndValidate libBadToken ⟨envNone, fsAllEmpty⟩ ⟨none⟩).outcome
        = .fatal "Unable to load oauth2 token from file: unexpected end of JSON input" ∧
      ¬ ∃ err, (loadAndValidate libBadToken ⟨envNone, fsAllEmpty⟩ ⟨none⟩).outcome
        = .returned err := by
  refine ⟨by decide, by decide, by decide, by decide, ?_⟩
  rintro ⟨err, h⟩
  rw [show (loadAndValidate libBadToken ⟨envNone, fsAllEmpty⟩ ⟨none⟩).outcome
    = .fatal "Unable to load oauth2 token from file: unexpected end of JSON input"
    from by decide] at h
  exact Outcome.noConfusion h

/-- C4, amended: when the credential file loads and parses and the token file is read but the
JSON decoder rejects its contents with error `e`, `loadAndValidate` terminates the process
with the fatal message "Unable to load oauth2 token from file: " followed by the message of
`e`; it does not return, and the `calendar` field is not assigned. -/
theorem loadAndValidate_fatal_of_malformed_token (L : Lib Cfg Tok Tr) (w : World)
    (c : Config Tr) (b : Bytes) (e : Error)
    (hc : (configFromFile L w).err = none)
    (hr : w.fs (getEnvWithDefault w.env "CALENDAR_OAUTH2_TOKEN_FILE" "token.json") = (b, none))
    (hu : (L.Unmarshal b L.zeroToken).2 = some e) :
    (loadAndValidate L w c).outcome
        = .fatal ("Unable to load oauth2 token from file: " ++ e.msg) ∧
      (∀ err, (loadAndValidate L w c).outcome ≠ .returned err) ∧
      (loadAndValidate L w c).c = c := by
  have hte : (tokenFromFile L w).err = some e := by
    rw [(tokenFromFile_read_ok L w b hr).2, hu]
  rw [loadAndValidate_token_error L w c e hc hte]
  exact ⟨rfl, fun err herr => Outcome.noConfusion herr, rfl⟩

/-- Instance of `loadAndValidate_fatal_of_malformed_token` with a decoder that rejects the
token file. -/
theorem loadAndValidate_fatal_of_malformed_token_witness :
    (loadAndValidate libBadToken ⟨envNone, fsAllEmpty⟩ ⟨none⟩).outcome
        = .fatal ("Unable to load oauth2 token from file: "
            ++ (Error.mk "unexpected end of JSON input").msg) ∧
      (∀ err, (loadAndValidate libBadToken ⟨envNone, fsAllEmpty⟩ ⟨none⟩).outcome
        ≠ .returned err) ∧
      (loadAndValidate libBadToken ⟨envNone, fsAllEmpty⟩ ⟨none⟩).c = ⟨none⟩ :=
  loadAndValidate_fatal_of_malformed_token libBadToken ⟨envNone, fsAllEmpty⟩ ⟨none⟩ []
    ⟨"unexpected end of JSON input"⟩ (by decide) (by decide) (by decide)

/-- C7: when the credential file is read and the client-secret parser rejects its contents
with error `e`, `configFromFile` returns a nil config and the error "Unable to parse client
secret file to config: " followed by the message of `e`; `loadAndValidate` then ends in
`log.Fatalf` after that single read, without reading the token file or building a client. -/
theorem configFromFile_parse_error_is_fatal (L : Lib Cfg Tok Tr) (w : World) (c : Config Tr)
    (b : Bytes) (e : Error)
    (hr : w.fs (getEnvWithDefault w.env "CALENDAR_CREDENTIALS_FILE" "credentials.json")
      = (b, none))
    (hp : (L.ConfigFromJSON b L.CalendarScope).2 = some e) :
    (configFromFile L w).val = none ∧
      (configFromFile L w).err
        = some ⟨"Unable to parse client secret file to config: " ++ e.msg⟩ ∧
      (loadAndValidate L w c).outcome
        = .fatal ("Unable to load configuration from file: "
            ++ ("Unable to parse client secret file to config: " ++ e.msg)) ∧
      (loadAndValidate L w c).reads
        = [getEnvWithDefault w.env "CALENDAR_CREDENTIALS_FILE" "credentials.json"] ∧
      (loadAndValidate L w c).c = c := by
  have hp2 : L.ConfigFromJSON b L.CalendarScope
      = ((L.ConfigFromJSON b L.CalendarScope).1, some e) := by
    rw [← hp]
  obtain ⟨hv, he⟩ := configFromFile_parse_error L w b _ e hr hp2
  refine ⟨hv, he, ?_, ?_, ?_⟩
  · rw [loadAndValidate_config_error L w c _ he]
  · rw [loadAndValidate_config_error L w c _ he]
    exact configFromFile_reads L w
  · rw [loadAndValidate_config_error L w c _ he]

/-- Instance of `configFromFile_parse_error_is_fatal` with a parser that rejects the
credential file. -/
theorem configFromFile_parse_error_is_fatal_witness :
    (configFromFile libBadSecret ⟨envNone, fsAllEmpty⟩).val = none ∧
      (configFromFile libBadSecret ⟨envNone, fsAllEmpty⟩).err
        = some ⟨"Unable to parse client secret file to config: "
            ++ (Error.mk "unexpected end of JSON input").msg⟩ ∧
      (loadAndValidate libBadSecret ⟨envNone, fsAllEmpty⟩ ⟨none⟩).outcome
        = .fatal ("Unable to load configuration from file: "
            ++ ("Unable to parse client secret file to config: "
              ++ (Error.mk "unexpected end of JSON input").msg)) ∧
      (loadAndValidate libBadSecret ⟨envNone, fsAllEmpty⟩ ⟨none⟩).reads
        = [getEnvWithDefault envNone "CALENDAR_CREDENTIALS_FILE" "credentials.json"] ∧
      (loadAndValidate libBadSecret ⟨envNone, fsAllEmpty⟩ ⟨none⟩).c = ⟨none⟩ :=
  configFromFile_parse_error_is_fatal libBadSecret ⟨envNone, fsAllEmpty⟩ ⟨none⟩ []
    ⟨"unexpected end of JSON input"⟩ (by decide) (by decide)

/-- C9: `loadAndValidate` loads the credential file before the token file.  When
`configFromFile` fails with error `e`, the only file read of the whole call is the one of
`configFromFile` (the read of `tokenFromFile` is never performed, whatever the state of the
token file) and the process ends with the fatal message "Unable to load configuration from
file: " followed by the message of `e`; when `configFromFile` succeeds, exactly two reads
happen, the credential path first and the token path second. -/
theorem loadAndValidate_credentials_before_token (L : Lib Cfg Tok Tr) (w : World)
    (c : Config Tr) :
    (∀ e, (configFromFile L w).err = some e →
        (loadAndValidate L w c).reads
          = [getEnvWithDefault w.env "CALENDAR_CREDENTIALS_FILE" "credentials.json"] ∧
        (loadAndValidate L w c).outcome
          = .fatal ("Unable to load configuration from file: " ++ e.msg)) ∧
      ((configFromFile L w).err = none →
        (loadAndValidate L w c).reads
          = [getEnvWithDefault w.env "CALENDAR_CREDENTIALS_FILE" "credentials.json",
             getEnvWithDefault w.env "CALENDAR_OAUTH2_TOKEN_FILE" "token.json"]) := by
  constructor
  · intro e he
    rw [loadAndValidate_config_error L w c e he]
    exact ⟨configFromFile_reads L w, rfl⟩
  · intro hce
    have hsub : (loadAndValidate L w c).reads
        = (configFromFile L w).reads ++ (tokenFromFile L w).reads := by
      cases hte : (tokenFromFile L w).err with
      | some e => rw [loadAndValidate_token_error L w c e hce hte]
      | none =>
        cases hs : L.calendarNew
            (httpClient L (configFromFile L w).val (tokenFromFile L w).val) with
        | mk svc e =>
          cases e with
          | some e => rw [loadAndValidate_service_error L w c svc e hce hte hs]
          | none =>
            cases svc with
            | none => rw [loadAndValidate_service_nil L w c hce hte hs]
            | some svc => rw [loadAndValidate_service_ok L w c svc hce hte hs]
    rw [hsub, configFromFile_reads, tokenFromFile_reads]
    rfl

/-- Instance of `loadAndValidate_credentials_before_token`: no file can be read (so the token
file is missing too), and every file can be read. -/
theorem loadAndValidate_credentials_before_token_witness :
    ((loadAndValidate libOk ⟨envNone, fsNoFile⟩ ⟨none⟩).reads
          = [getEnvWithDefault envNone "CALENDAR_CREDENTIALS_FILE" "credentials.json"] ∧
        (loadAndValidate libOk ⟨envNone, fsNoFile⟩ ⟨none⟩).outcome
          = .fatal ("Unable to load configuration from file: "
              ++ (Error.mk "Unable to read client secret file: no such file or directory").msg))
      ∧ (loadAndValidate libOk ⟨envCustom, fsAllEmpty⟩ ⟨none⟩).reads
          = [getEnvWithDefault envCustom "CALENDAR_CREDENTIALS_FILE" "credentials.json",
             getEnvWithDefault envCustom "CALENDAR_OAUTH2_TOKEN_FILE" "token.json"] :=
  ⟨(loadAndValidate_credentials_before_token libOk ⟨envNone, fsNoFile⟩ ⟨none⟩).1
      ⟨"Unable to read client secret file: no such file or directory"⟩ (by decide),
    (loadAndValidate_credentials_before_token libOk ⟨envCustom, fsAllEmpty⟩ ⟨none⟩).2
      (by decide)⟩

/-! ## Building the calendar service -/

/-- C5: when both files load (`configFromFile` and `tokenFromFile` return a nil error) and
`calendar.New` fails with error `e`, `loadAndValidate` does not end the process: it returns
the non-nil error whose message is "failed creating a new calendar service: " followed by
the message of `e`. -/
theorem loadAndValidate_service_failure_returned (L : Lib Cfg Tok Tr) (w : World)
    (c : Config Tr) (e : Error)
    (hc : (configFromFile L w).err = none) (ht : (tokenFromFile L w).err = none)
    (hs : (L.calendarNew (httpClient L (configFromFile L w).val (tokenFromFile L w).val)).2
      = some e) :
    (loadAndValidate L w c).outcome
      = .returned (some ⟨"failed creating a new calendar service: " ++ e.msg⟩) := by
  have hs2 : L.calendarNew (httpClient L (configFromFile L w).val (tokenFromFile L w).val)
      = ((L.calendarNew (httpClient L (configFromFile L w).val (tokenFromFile L w).val)).1,
          some e) := by
    rw [← hs]
  rw [loadAndValidate_service_error L w c _ e hc ht hs2]

/-- Instance of `loadAndValidate_service_failure_returned` with a service constructor that
fails. -/
theorem loadAndValidate_service_failure_returned_witness :
    (loadAndValidate libNoService ⟨envNone, fsAllEmpty⟩ ⟨none⟩).outcome
      = .returned (some ⟨"failed creating a new calendar service: "
          ++ (Error.mk "client is nil").msg⟩) :=
  loadAndValidate_service_failure_returned libNoService ⟨envNone, fsAllEmpty⟩ ⟨none⟩
    ⟨"client is nil"⟩ (by decide) (by decide) (by decide)

/-- C6: when the credential file reads and parses, the token file reads and parses, and
`calendar.New` returns the service `svc` with a nil error, `loadAndValidate` returns nil and
leaves `c.calendar` pointing to `svc` with its `UserAgent` field set to
"(" + GOOS + " " + GOARCH + ") Terraform/" + the Terraform version string. -/
theorem loadAndValidate_success (L : Lib Cfg Tok Tr) (w : World) (c : Config Tr)
    (svc : Service Tr)
    (hc : (configFromFile L w).err = none) (ht : (tokenFromFile L w).err = none)
    (hs : L.calendarNew (httpClient L (configFromFile L w).val (tokenFromFile L w).val)
      = (some svc, none)) :
    (loadAndValidate L w c).outcome = .returned none ∧
      (loadAndValidate L w c).c.calendar
        = some ⟨svc.client, svc.BasePath,
            "(" ++ L.GOOS ++ " " ++ L.GOARCH ++ ") Terraform/" ++ L.VersionString⟩ := by
  rw [loadAndValidate_service_ok L w c svc hc ht hs]
  exact ⟨rfl, rfl⟩

/-- Instance of `loadAndValidate_success` on linux/amd64 with Terraform 0.11.7. -/
theorem loadAndValidate_success_witness :
    (loadAndValidate libOk ⟨envNone, fsAllEmpty⟩ ⟨none⟩).outcome = .returned none ∧
      (loadAndValidate libOk ⟨envNone, fsAllEmpty⟩ ⟨none⟩).c.calendar
        = some ⟨⟨()⟩, "https://www.googleapis.com/calendar/v3/",
            "(" ++ libOk.GOOS ++ " " ++ libOk.GOARCH ++ ") Terraform/"
              ++ libOk.VersionString⟩ :=
  loadAndValidate_success libOk ⟨envNone, fsAllEmpty⟩ ⟨none⟩
    ⟨⟨()⟩, "https://www.googleapis.com/calendar/v3/", ""⟩ (by decide) (by decide) (by decide)

/-- C8: whenever `loadAndValidate` returns a non-nil error, the `calendar` field of its
receiver is what it was before the call. -/
theorem loadAndValidate_error_keeps_calendar (L : Lib Cfg Tok Tr) (w : World) (c : Config Tr)
    (e : Error) (h : (loadAndValidate L w c).outcome = .returned (some e)) :
    (loadAndValidate L w c).c.calendar = c.calendar := by
  cases hce : (configFromFile L w).err with
  | some e1 => rw [loadAndValidate_config_error L w c e1 hce]
  | none =>
    cases hte : (tokenFromFile L w).err with
    | some e2 => rw [loadAndValidate_token_error L w c e2 hce hte]
    | none =>
      cases hs : L.calendarNew
          (httpClient L (configFromFile L w).val (tokenFromFile L w).val) with
      | mk svc e3 =>
        cases e3 with
        | some e3 => rw [loadAndValidate_service_error L w c svc e3 hce hte hs]
        | none =>
          cases svc with
          | none => rw [loadAndValidate_service_nil L w c hce hte hs]
          | some svc =>
            rw [loadAndValidate_service_ok L w c svc hce hte hs] at h
            exact absurd h (by simp)

/-- Instance of `loadAndValidate_error_keeps_calendar`: the receiver already holds a service
and the service constructor fails. -/
theorem loadAndValidate_error_keeps_calendar_witness :
    (loadAndValidate libNoService ⟨envNone, fsAllEmpty⟩ ⟨some ⟨⟨()⟩, "base", "agent"⟩⟩).outcome
        = .returned (some ⟨"failed creating a new calendar service: client is nil"⟩) ∧
      (loadAndValidate libNoService ⟨envNone, fsAllEmpty⟩
        ⟨some ⟨⟨()⟩, "base", "agent"⟩⟩).c.calendar = some ⟨⟨()⟩, "base", "agent"⟩ :=
  ⟨by decide,
    loadAndValidate_error_keeps_calendar libNoService ⟨envNone, fsAllEmpty⟩
      ⟨some ⟨⟨()⟩, "base", "agent"⟩⟩
      ⟨"failed creating a new calendar service: client is nil"⟩ (by decide)⟩

end GoogleCalendar
